import Mathlib

/-!
Verification of the build-orchestration scripts of `solana-sbpf-rlib`
(`build-rlibs-latest.py`, `build_crate.py`, `get-rlibs-from-crate.py`)
against their natural-language specification.

The Python functions are shallowly embedded as executable Lean functions.
Strings are modelled as Lean `String`/`List Char` (ASCII reading of Python
text semantics: `str.isdigit`, `\s`, `\d` and `str.strip` are modelled on
the ASCII digit and whitespace classes, which cover every string the
scripts handle).  File-system state is passed explicitly.
-/

/-- ASCII whitespace class used by Python `str.strip()` and the regex
class `\s` on the inputs handled by these scripts. -/
def pyWs (c : Char) : Bool :=
  c = ' ' || c = '\t' || c = '\n' || c = '\r' || c = '\x0b' || c = '\x0c'

/-- Python `s.strip()` (both-ends whitespace strip) on a character list. -/
def stripWs (s : List Char) : List Char :=
  ((s.dropWhile pyWs).reverse.dropWhile pyWs).reverse

/-- Python `s.split(sep, 1)` for a single-character separator: `none` when
the separator does not occur (the scripts test `sep in s` first). -/
def splitFirst (sep : Char) : List Char → Option (List Char × List Char)
  | [] => none
  | c :: cs =>
    if c = sep then some ([], cs)
    else (splitFirst sep cs).map (fun p => (c :: p.1, p.2))

/-- Python `s.split(sep)` for a single-character separator; empty pieces
are kept and `"".split(sep) = [""]`. -/
def splitAll (sep : Char) : List Char → List (List Char)
  | [] => [[]]
  | c :: cs =>
    if c = sep then [] :: splitAll sep cs
    else
      match splitAll sep cs with
      | [] => [[c]]
      | p :: ps => (c :: p) :: ps

/-- Python `s.isdigit()` (ASCII digits). -/
def pyIsDigitStr (s : List Char) : Bool :=
  !s.isEmpty && s.all Char.isDigit

/-- Decimal value of a digit string (the value `int` returns on it). -/
def digitsToNat (s : List Char) : Nat :=
  s.foldl (fun a c => a * 10 + (c.toNat - '0'.toNat)) 0

/-- `re.match(r"^(\d+)", p)` turned into a number, with the source's
`0` default when there is no leading digit. -/
def leadingNum (p : List Char) : Nat :=
  let d := p.takeWhile Char.isDigit
  if d.isEmpty then 0 else digitsToNat d

/-- Python substring test `needle in hay` on character lists. -/
def subIn (n : List Char) : List Char → Bool
  | [] => n.isEmpty
  | c :: t => n.isPrefixOf (c :: t) || subIn n t

/-- Python substring test `needle in hay` on strings. -/
def strIn (n h : String) : Bool := subIn n.data h.data

/-! ## Version Resolver: `version_sort_key` (build-rlibs-latest.py:272-299) -/

/-- One token of a prerelease suffix: Python's `(0, int(part))` for a
numeric token and `(1, part)` for a textual one. -/
inductive PreTok where
  | num (n : Nat)
  | str (s : List Char)
deriving DecidableEq, Repr

/-- `_prerelease_key`'s value: Python's `(1, ())` for a release (no or
empty prerelease suffix) and `(0, toks)` for a prerelease. -/
inductive PreKey where
  | rel
  | pre (toks : List PreTok)
deriving DecidableEq, Repr

/-- The tokens of a prerelease suffix, as built by `_prerelease_key`. -/
def preToks (pre : List Char) : List PreTok :=
  (splitAll '.' pre).map
    (fun part => if pyIsDigitStr part then .num (digitsToNat part) else .str part)

/-- `_prerelease_key(pre)`: `pre` is `None` when the version has no `-`,
and Python's `if not pre` also sends the empty suffix to the release key. -/
def prereleaseKey : Option (List Char) → PreKey
  | none => .rel
  | some [] => .rel
  | some (c :: t) => .pre (preToks (c :: t))

/-- The sort key `version_sort_key` returns: the numeric core components
paired with the prerelease key (Python's nested tuple). -/
structure VKey where
  nums : List Nat
  pre : PreKey
deriving DecidableEq, Repr

/-- The numeric components of the dotted core, one per `.`-piece:
`int(p)` for a digit piece, else the leading digits or `0`. -/
def coreNums (core : List Char) : List Nat :=
  (splitAll '.' core).map
    (fun p => if pyIsDigitStr p then digitsToNat p else leadingNum p)

/-- `while len(nums) < 4: nums.append(0)`. -/
def padNums (l : List Nat) : List Nat :=
  l ++ List.replicate (4 - l.length) 0

/-- `version_sort_key(ver)` from build-rlibs-latest.py:284-299. -/
def version_sort_key (ver : String) : VKey :=
  let s := (stripWs ver.data).dropWhile (· = 'v')
  match splitFirst '-' s with
  | some (core, pre) => ⟨padNums (coreNums core), prereleaseKey (some pre)⟩
  | none => ⟨padNums (coreNums s), prereleaseKey none⟩

/-! ### Comparators.

Python compares the nested key tuples lexicographically.  The comparators
below reproduce CPython's tuple/int/str comparison for the key shapes
`version_sort_key` produces. -/

/-- CPython integer comparison as a three-way comparator. -/
def cmpNat (a b : Nat) : Ordering :=
  if a < b then .lt else if a = b then .eq else .gt

/-- Lexicographic tuple/list comparison (shorter prefix sorts first),
CPython's sequence-comparison rule. -/
def cmpListC (c : α → α → Ordering) : List α → List α → Ordering
  | [], [] => .eq
  | [], _ :: _ => .lt
  | _ :: _, [] => .gt
  | a :: as_, b :: bs =>
    match c a b with
    | .eq => cmpListC c as_ bs
    | o => o

/-- CPython string comparison (by code point). -/
def cmpChar (a b : Char) : Ordering := cmpNat a.toNat b.toNat

/-- Comparison of prerelease tokens: Python compares the `(tag, payload)`
pairs, so numeric tokens sort before textual ones. -/
def cmpPreTok : PreTok → PreTok → Ordering
  | .num a, .num b => cmpNat a b
  | .num _, .str _ => .lt
  | .str _, .num _ => .gt
  | .str a, .str b => cmpListC cmpChar a b

/-- Comparison of prerelease keys: Python compares the leading tag, so
any prerelease `(0, toks)` sorts below the release key `(1, ())`. -/
def cmpPreKey : PreKey → PreKey → Ordering
  | .rel, .rel => .eq
  | .pre _, .rel => .lt
  | .rel, .pre _ => .gt
  | .pre a, .pre b => cmpListC cmpPreTok a b

/-- Comparison of full version keys (Python's pair comparison). -/
def vkeyCmp (a b : VKey) : Ordering :=
  match cmpListC cmpNat a.nums b.nums with
  | .eq => cmpPreKey a.pre b.pre
  | o => o

/-! ### The comparator is a total order on keys. -/

theorem cmpNat_eq_iff (a b : Nat) : cmpNat a b = .eq ↔ a = b := by
  unfold cmpNat
  by_cases h1 : a < b
  · simp only [h1, if_true]
    simp only [show (Ordering.lt = .eq) = False by simp, false_iff]
    omega
  · by_cases h2 : a = b <;> simp [h1, h2]

theorem cmpNat_lt_iff (a b : Nat) : cmpNat a b = .lt ↔ a < b := by
  unfold cmpNat
  by_cases h1 : a < b
  · simp [h1]
  · by_cases h2 : a = b <;> simp [h1, h2]

theorem cmpNat_swap (a b : Nat) : cmpNat a b = (cmpNat b a).swap := by
  unfold cmpNat
  by_cases h1 : a < b
  · have h2 : ¬ b < a := by omega
    have h3 : ¬ b = a := by omega
    simp [h1, h2, h3, Ordering.swap]
  · by_cases h2 : a = b
    · subst h2
      simp [Ordering.swap]
    · have h3 : b < a := by omega
      simp [h1, h2, h3, Ordering.swap]

theorem cmpNat_lt_trans {a b c : Nat} (h1 : cmpNat a b = .lt) (h2 : cmpNat b c = .lt) :
    cmpNat a c = .lt := by
  rw [cmpNat_lt_iff] at *
  omega

theorem cmpChar_eq_iff (a b : Char) : cmpChar a b = .eq ↔ a = b := by
  unfold cmpChar
  rw [cmpNat_eq_iff]
  constructor
  · intro h
    exact Char.ofNat_toNat a ▸ Char.ofNat_toNat b ▸ congrArg Char.ofNat h
  · intro h
    rw [h]

theorem cmpChar_swap (a b : Char) : cmpChar a b = (cmpChar b a).swap :=
  cmpNat_swap a.toNat b.toNat

theorem cmpChar_lt_trans {a b c : Char} (h1 : cmpChar a b = .lt) (h2 : cmpChar b c = .lt) :
    cmpChar a c = .lt :=
  cmpNat_lt_trans h1 h2

theorem cmpListC_eq_iff (c : α → α → Ordering) (hc : ∀ a b, c a b = .eq ↔ a = b) :
    ∀ l1 l2 : List α, cmpListC c l1 l2 = .eq ↔ l1 = l2 := by
  intro l1
  induction l1 with
  | nil => intro l2; cases l2 <;> simp [cmpListC]
  | cons a as ih =>
    intro l2
    cases l2 with
    | nil => simp [cmpListC]
    | cons b bs =>
      simp only [cmpListC]
      rcases ho : c a b with _ | _ | _
      · have : a ≠ b := fun h => by simp [(hc a b).mpr h] at ho
        simp [this]
      · have hab : a = b := (hc a b).mp ho
        simp [hab, ih bs]
      · have : a ≠ b := fun h => by simp [(hc a b).mpr h] at ho
        simp [this]

theorem cmpListC_swap (c : α → α → Ordering) (hc : ∀ a b, c a b = (c b a).swap) :
    ∀ l1 l2 : List α, cmpListC c l1 l2 = (cmpListC c l2 l1).swap := by
  intro l1
  induction l1 with
  | nil => intro l2; cases l2 <;> simp [cmpListC, Ordering.swap]
  | cons a as ih =>
    intro l2
    cases l2 with
    | nil => simp [cmpListC, Ordering.swap]
    | cons b bs =>
      simp only [cmpListC, hc a b]
      rcases c b a with _ | _ | _ <;> simp [Ordering.swap, ih bs]

theorem cmpListC_lt_trans (c : α → α → Ordering)
    (hceq : ∀ a b, c a b = .eq ↔ a = b)
    (hctr : ∀ {a b d : α}, c a b = .lt → c b d = .lt → c a d = .lt) :
    ∀ {l1 l2 l3 : List α}, cmpListC c l1 l2 = .lt → cmpListC c l2 l3 = .lt →
      cmpListC c l1 l3 = .lt := by
  intro l1
  induction l1 with
  | nil =>
    intro l2 l3 h1 h2
    cases l2 with
    | nil => simp [cmpListC] at h1
    | cons b bs =>
      cases l3 with
      | nil => simp [cmpListC] at h2
      | cons d ds => simp [cmpListC]
  | cons a as ih =>
    intro l2 l3 h1 h2
    cases l2 with
    | nil => simp [cmpListC] at h1
    | cons b bs =>
      cases l3 with
      | nil => simp [cmpListC] at h2
      | cons d ds =>
        simp only [cmpListC] at h1 h2 ⊢
        rcases hab : c a b with _ | _ | _ <;> rcases hbd : c b d with _ | _ | _ <;>
          simp only [hab, hbd] at h1 h2 <;>
          (try simp at h1) <;> (try simp at h2)
        · simp [hctr hab hbd]
        · have hbd' : b = d := (hceq b d).mp hbd
          have had : c a d = .lt := by rw [← hbd']; exact hab
          simp [had]
        · have hab' : a = b := (hceq a b).mp hab
          have had : c a d = .lt := by rw [hab']; exact hbd
          simp [had]
        · have hab' : a = b := (hceq a b).mp hab
          have hbd' : b = d := (hceq b d).mp hbd
          have had : c a d = .eq := (hceq a d).mpr (hab'.trans hbd')
          simp [had, ih h1 h2]

theorem cmpPreTok_eq_iff (a b : PreTok) : cmpPreTok a b = .eq ↔ a = b := by
  cases a <;> cases b <;> simp [cmpPreTok]
  · exact cmpNat_eq_iff _ _
  · exact cmpListC_eq_iff cmpChar cmpChar_eq_iff _ _

theorem cmpPreTok_swap (a b : PreTok) : cmpPreTok a b = (cmpPreTok b a).swap := by
  cases a <;> cases b <;> simp [cmpPreTok, Ordering.swap]
  · exact cmpNat_swap _ _
  · exact cmpListC_swap cmpChar cmpChar_swap _ _

theorem cmpPreTok_lt_trans {a b c : PreTok} (h1 : cmpPreTok a b = .lt)
    (h2 : cmpPreTok b c = .lt) : cmpPreTok a c = .lt := by
  cases a <;> cases b <;> cases c <;> simp_all [cmpPreTok]
  · exact cmpNat_lt_trans h1 h2
  · exact cmpListC_lt_trans cmpChar cmpChar_eq_iff (fun hx hy => cmpChar_lt_trans hx hy) h1 h2

theorem cmpPreKey_eq_iff (a b : PreKey) : cmpPreKey a b = .eq ↔ a = b := by
  cases a <;> cases b <;> simp [cmpPreKey]
  exact cmpListC_eq_iff cmpPreTok cmpPreTok_eq_iff _ _

theorem cmpPreKey_swap (a b : PreKey) : cmpPreKey a b = (cmpPreKey b a).swap := by
  cases a <;> cases b <;> simp [cmpPreKey, Ordering.swap]
  exact cmpListC_swap cmpPreTok cmpPreTok_swap _ _

theorem cmpPreKey_lt_trans {a b c : PreKey} (h1 : cmpPreKey a b = .lt)
    (h2 : cmpPreKey b c = .lt) : cmpPreKey a c = .lt := by
  cases a <;> cases b <;> cases c <;> simp_all [cmpPreKey]
  exact cmpListC_lt_trans cmpPreTok cmpPreTok_eq_iff
    (fun hx hy => cmpPreTok_lt_trans hx hy) h1 h2

theorem vkeyCmp_eq_iff (a b : VKey) : vkeyCmp a b = .eq ↔ a = b := by
  unfold vkeyCmp
  rcases hn : cmpListC cmpNat a.nums b.nums with _ | _ | _
  · have : a.nums ≠ b.nums := fun h => by
      simp [(cmpListC_eq_iff cmpNat cmpNat_eq_iff _ _).mpr h] at hn
    simp only [show (Ordering.lt = .eq) = False by simp, false_iff]
    intro h
    exact this (congrArg VKey.nums h)
  · have hnum : a.nums = b.nums := (cmpListC_eq_iff cmpNat cmpNat_eq_iff _ _).mp hn
    rw [cmpPreKey_eq_iff]
    cases a
    cases b
    simp_all
  · have : a.nums ≠ b.nums := fun h => by
      simp [(cmpListC_eq_iff cmpNat cmpNat_eq_iff _ _).mpr h] at hn
    simp only [show (Ordering.gt = .eq) = False by simp, false_iff]
    intro h
    exact this (congrArg VKey.nums h)

theorem vkeyCmp_swap (a b : VKey) : vkeyCmp a b = (vkeyCmp b a).swap := by
  unfold vkeyCmp
  rw [cmpListC_swap cmpNat cmpNat_swap a.nums b.nums]
  rcases cmpListC cmpNat b.nums a.nums with _ | _ | _ <;>
    simp [Ordering.swap, cmpPreKey_swap a.pre b.pre]

theorem vkeyCmp_lt_trans {a b c : VKey} (h1 : vkeyCmp a b = .lt) (h2 : vkeyCmp b c = .lt) :
    vkeyCmp a c = .lt := by
  unfold vkeyCmp at *
  rcases hab : cmpListC cmpNat a.nums b.nums with _ | _ | _ <;>
    rcases hbc : cmpListC cmpNat b.nums c.nums with _ | _ | _ <;>
    simp only [hab, hbc] at h1 h2 <;> (try simp at h1) <;> (try simp at h2)
  · simp [cmpListC_lt_trans cmpNat cmpNat_eq_iff (fun hx hy => cmpNat_lt_trans hx hy) hab hbc]
  · have : b.nums = c.nums := (cmpListC_eq_iff cmpNat cmpNat_eq_iff _ _).mp hbc
    rw [← this]
    simp [hab]
  · have : a.nums = b.nums := (cmpListC_eq_iff cmpNat cmpNat_eq_iff _ _).mp hab
    rw [this]
    simp [hbc]
  · have hac : a.nums = c.nums :=
      ((cmpListC_eq_iff cmpNat cmpNat_eq_iff _ _).mp hab).trans
        ((cmpListC_eq_iff cmpNat cmpNat_eq_iff _ _).mp hbc)
    rw [show cmpListC cmpNat a.nums c.nums = .eq from
      (cmpListC_eq_iff cmpNat cmpNat_eq_iff _ _).mpr hac]
    exact cmpPreKey_lt_trans h1 h2

/-! ## Version Resolver: `resolve_versions_for_crate` (build-rlibs-latest.py:333-349)

The registry fetch is an external HTTP call; its outcome is a parameter
(`none` models the exception path, in which case the cached lines are
used).  The cache-file write performed on a successful non-empty fetch is
returned as the second component. -/

/-- CPython string comparison, on `String`. -/
def strCmp (a b : String) : Ordering := cmpListC cmpChar a.data b.data

/-- Insert into a `<`-sorted list of strings (building block of the
`sorted(...)` call; for the duplicate-free input it receives the result
is the ascending ordering of the elements, which is what `sorted`
returns). -/
def insertStr (x : String) : List String → List String
  | [] => [x]
  | y :: ys => if strCmp x y = .gt then y :: insertStr x ys else x :: y :: ys

/-- Insertion sort by CPython string `<`. -/
def sortStrs (l : List String) : List String := l.foldr insertStr []

/-- `sorted(set(versions), key=lambda s: s)`: the distinct elements in
ascending lexicographic string order (the `key` is the identity, so this
is plain string ordering, not `version_sort_key` ordering). -/
def pySortedStrings (l : List String) : List String := sortStrs l.dedup

/-- `max(versions, key=version_sort_key)` over `x :: xs`: CPython keeps
the current maximum and replaces it only when a later item's key is
strictly greater. -/
def pymax1 (x : String) (xs : List String) : String :=
  xs.foldl
    (fun acc y => if vkeyCmp (version_sort_key y) (version_sort_key acc) = .gt then y else acc)
    x

/-- `resolve_versions_for_crate` (build-rlibs-latest.py:333-349), with the
fetch outcome as a parameter: returns the version list handed to the
caller together with the cache-file contents written (if any). -/
def resolve_versions_for_crate (fetched : Option (List String)) (cached : List String)
    (latest_only : Bool) : List String × Option (List String) :=
  let versions := match fetched with
    | some vs => vs
    | none => cached
  let persisted := match fetched with
    | some vs => if vs.isEmpty then none else some (pySortedStrings vs)
    | none => none
  match versions with
  | [] => ([], persisted)
  | v :: vs => if latest_only then ([pymax1 v vs], persisted) else (v :: vs, persisted)

theorem strCmp_eq_iff (a b : String) : strCmp a b = .eq ↔ a = b := by
  unfold strCmp
  rw [cmpListC_eq_iff cmpChar cmpChar_eq_iff]
  constructor
  · intro h
    exact String.ext h
  · intro h
    rw [h]

theorem strCmp_swap (a b : String) : strCmp a b = (strCmp b a).swap :=
  cmpListC_swap cmpChar cmpChar_swap a.data b.data

theorem strCmp_lt_trans {a b c : String} (h1 : strCmp a b = .lt) (h2 : strCmp b c = .lt) :
    strCmp a c = .lt :=
  cmpListC_lt_trans cmpChar cmpChar_eq_iff (fun hx hy => cmpChar_lt_trans hx hy) h1 h2

theorem mem_insertStr {a x : String} {l : List String} :
    a ∈ insertStr x l ↔ a = x ∨ a ∈ l := by
  induction l with
  | nil => simp [insertStr]
  | cons y ys ih =>
    unfold insertStr
    split <;> simp [ih] <;> tauto

theorem insertStr_pairwise {x : String} {l : List String} (hx : x ∉ l)
    (hl : l.Pairwise (fun a b => strCmp a b = .lt)) :
    (insertStr x l).Pairwise (fun a b => strCmp a b = .lt) := by
  induction l with
  | nil => simp [insertStr]
  | cons y ys ih =>
    rw [List.pairwise_cons] at hl
    unfold insertStr
    split
    · rename_i hgt
      rw [List.pairwise_cons]
      constructor
      · intro z hz
        rcases mem_insertStr.mp hz with h | h
        · rw [h]
          have hs := strCmp_swap y x
          rw [hgt] at hs
          simpa [Ordering.swap] using hs
        · exact hl.1 z h
      · exact ih (fun h => hx (List.mem_cons_of_mem _ h)) hl.2
    · rename_i hngt
      have hne : x ≠ y := fun h => hx (h ▸ List.mem_cons_self x _)
      have hlt : strCmp x y = .lt := by
        rcases h : strCmp x y with _ | _ | _
        · rfl
        · exact absurd ((strCmp_eq_iff x y).mp h) hne
        · exact absurd h hngt
      rw [List.pairwise_cons]
      constructor
      · intro z hz
        rcases List.mem_cons.mp hz with h | h
        · rw [h]
          exact hlt
        · exact strCmp_lt_trans hlt (hl.1 z h)
      · rw [List.pairwise_cons]
        exact hl

theorem mem_sortStrs {a : String} {l : List String} : a ∈ sortStrs l ↔ a ∈ l := by
  induction l with
  | nil => simp [sortStrs]
  | cons y ys ih =>
    show a ∈ insertStr y (sortStrs ys) ↔ _
    rw [mem_insertStr, ih]
    simp

theorem sortStrs_pairwise {l : List String} (h : l.Nodup) :
    (sortStrs l).Pairwise (fun a b => strCmp a b = .lt) := by
  induction l with
  | nil => simp [sortStrs]
  | cons y ys ih =>
    rw [List.nodup_cons] at h
    show (insertStr y (sortStrs ys)).Pairwise _
    exact insertStr_pairwise (fun hm => h.1 (mem_sortStrs.mp hm)) (ih h.2)

theorem pySortedStrings_pairwise (l : List String) :
    (pySortedStrings l).Pairwise (fun a b => strCmp a b = .lt) :=
  sortStrs_pairwise l.nodup_dedup

/-- C1: `version_sort_key` induces a total order (the key comparison is
reflexive-antisymmetric, swap-symmetric and transitive); on a shared
numeric core the release key sorts strictly above any prerelease key; on
prerelease-free versions the order is exactly component-wise numeric
comparison of the cores, so `"1.18.2" < "1.18.16"`; and latest-only
resolution over `["0.9.0","1.0.0","1.0.0-beta.1"]` selects `"1.0.0"`. -/
theorem c1_version_ordering :
    (∀ a b : VKey, vkeyCmp a b = .eq ↔ a = b) ∧
    (∀ a b : VKey, vkeyCmp a b = (vkeyCmp b a).swap) ∧
    (∀ a b c : VKey, vkeyCmp a b = .lt → vkeyCmp b c = .lt → vkeyCmp a c = .lt) ∧
    (∀ (a b : String) (toks : List PreTok),
      (version_sort_key a).nums = (version_sort_key b).nums →
      (version_sort_key a).pre = .rel →
      (version_sort_key b).pre = .pre toks →
      vkeyCmp (version_sort_key b) (version_sort_key a) = .lt) ∧
    (∀ a b : String,
      (version_sort_key a).pre = .rel → (version_sort_key b).pre = .rel →
      vkeyCmp (version_sort_key a) (version_sort_key b) =
        cmpListC cmpNat (version_sort_key a).nums (version_sort_key b).nums) ∧
    vkeyCmp (version_sort_key "1.18.2") (version_sort_key "1.18.16") = .lt ∧
    (resolve_versions_for_crate (some ["0.9.0", "1.0.0", "1.0.0-beta.1"]) [] true).1
      = ["1.0.0"] := by
  refine ⟨vkeyCmp_eq_iff, vkeyCmp_swap, fun a b c h1 h2 => vkeyCmp_lt_trans h1 h2,
    ?_, ?_, by decide, by decide⟩
  · intro a b toks hn hra hpb
    have he : cmpListC cmpNat (version_sort_key b).nums (version_sort_key a).nums = .eq :=
      (cmpListC_eq_iff cmpNat cmpNat_eq_iff _ _).mpr hn.symm
    unfold vkeyCmp
    simp [he, hpb, hra, cmpPreKey]
  · intro a b ha hb
    unfold vkeyCmp
    rcases h : cmpListC cmpNat (version_sort_key a).nums (version_sort_key b).nums
      with _ | _ | _ <;> simp [h, ha, hb, cmpPreKey]

/-- Witness for C1: the release `"1.0.0"` sorts strictly above the
prerelease `"1.0.0-beta.1"` on the same numeric core. -/
theorem c1_version_ordering_witness :
    vkeyCmp (version_sort_key "1.0.0-beta.1") (version_sort_key "1.0.0") = .lt :=
  c1_version_ordering.2.2.2.1 "1.0.0" "1.0.0-beta.1" (preToks "beta.1".data)
    (by decide) (by decide) (by decide)

/-- C5 counterexample: a successful fetch of `["1.18.2","1.18.16"]`
persists the cache file as `["1.18.16","1.18.2"]` (plain lexicographic
string order from `sorted(set(versions), key=lambda s: s)`), which is
strictly *decreasing* in the `version_sort_key` order — so the persisted
list is not sorted by `versionSortKey`. -/
theorem c5_cache_sort_counterexample :
    (resolve_versions_for_crate (some ["1.18.2", "1.18.16"]) [] true).2
      = some ["1.18.16", "1.18.2"] ∧
    vkeyCmp (version_sort_key "1.18.16") (version_sort_key "1.18.2") = .gt := by
  decide

/-- C5 as amended: when the registry fetch succeeds with a non-empty
list, the persisted cache file is the duplicate-free list of fetched
versions in strictly ascending *lexicographic string* order (the sort key
in the source is the identity `lambda s: s`, not `version_sort_key`). -/
theorem c5_cache_sorted_lexicographically (fetched : List String) (cached : List String)
    (latest_only : Bool) (out : List String)
    (h : (resolve_versions_for_crate (some fetched) cached latest_only).2 = some out) :
    out.Pairwise (fun a b => strCmp a b = .lt) ∧ (∀ a, a ∈ out ↔ a ∈ fetched) := by
  unfold resolve_versions_for_crate at h
  by_cases hne : fetched.isEmpty
  · rw [List.isEmpty_iff] at hne
    subst hne
    simp at h
  · simp only [hne, if_false] at h
    have hout : out = pySortedStrings fetched := by
      cases fetched with
      | nil => simp at hne
      | cons v vs =>
        rcases hlo : latest_only <;> simp [hlo] at h <;> exact h.symm
    subst hout
    refine ⟨pySortedStrings_pairwise fetched, fun a => ?_⟩
    unfold pySortedStrings
    rw [mem_sortStrs, List.mem_dedup]

/-- Witness for C5 (amended): a concrete persisted cache file is in
ascending lexicographic string order. -/
theorem c5_cache_sorted_lexicographically_witness :
    List.Pairwise (fun a b => strCmp a b = .lt) ["0.9.0", "1.0.0"] :=
  (c5_cache_sorted_lexicographically ["1.0.0", "0.9.0"] [] true ["0.9.0", "1.0.0"]
    (by decide)).1

/-! ## Log Classifier: `classify_result` (build-rlibs-latest.py:367-387) -/

/-- Match the regex `Done:\s+(\d+)/(\d+)\s+versions produced rlibs` at the
head of the input: consume the literal, the whitespace runs and the digit
runs (the regex is backtracking-free here because each `+`-class is
followed by a character outside the class). -/
def dropLit : List Char → List Char → Option (List Char)
  | [], s => some s
  | _ :: _, [] => none
  | c :: cs, d :: ds => if c = d then dropLit cs ds else none

/-- `\s+`: one or more whitespace characters. -/
def ws1 : List Char → Option (List Char)
  | [] => none
  | c :: t => if pyWs c then some (t.dropWhile pyWs) else none

/-- `(\d+)`: one or more digits, captured as a number. -/
def digits1 (s : List Char) : Option (Nat × List Char) :=
  let d := s.takeWhile Char.isDigit
  if d.isEmpty then none else some (digitsToNat d, s.dropWhile Char.isDigit)

/-- One match of the `Done:` summary-line regex starting exactly here;
returns the two captured counts and the rest of the input. -/
def matchDoneAt (s : List Char) : Option ((Nat × Nat) × List Char) := do
  let s1 ← dropLit "Done:".data s
  let s2 ← ws1 s1
  let (b, s3) ← digits1 s2
  let s4 ← dropLit "/".data s3
  let (t, s5) ← digits1 s4
  let s6 ← ws1 s5
  let s7 ← dropLit "versions produced rlibs".data s6
  pure ((b, t), s7)

/-- `re.findall` of the summary-line regex: scan left to right, emitting
non-overlapping matches and resuming after each match. -/
def findDoneAux : Nat → List Char → List (Nat × Nat)
  | 0, _ => []
  | _, [] => []
  | fuel + 1, c :: t =>
    match matchDoneAt (c :: t) with
    | some (bt, rest) => bt :: findDoneAux fuel rest
    | none => findDoneAux fuel t

/-- All `(built, total)` pairs of `Done: B/T versions produced rlibs`
summary lines in the log, in order. -/
def findDone (s : List Char) : List (Nat × Nat) := findDoneAux s.length s

/-- `classify_result(log_text, rc)` (build-rlibs-latest.py:367-387). -/
def classify_result (log_text : String) (rc : Int) : String × Nat × Nat :=
  let done_match := findDone log_text.data
  if rc = 0 then
    match done_match.getLast? with
    | some (built, total) =>
      if built = 0 && strIn "Rlib for" log_text && strIn "not found" log_text then
        ("no_rlib", built, total)
      else
        ("ok", built, total)
    | none => ("ok", 0, 0)
  else
    match done_match.getLast? with
    | some (built, total) =>
      if built > 0 then
        ("partial", built, total)
      else if strIn "Rlib for" log_text && strIn "not found" log_text then
        ("no_rlib", 0, 0)
      else
        ("failed", 0, 0)
    | none =>
      if strIn "Rlib for" log_text && strIn "not found" log_text then
        ("no_rlib", 0, 0)
      else
        ("failed", 0, 0)

/-- C2: `classify_result` takes its counts from the last `Done: B/T
versions produced rlibs` summary line; with exit code zero it returns
`ok` (counts `(0,0)` with no summary line) unless the last summary shows
zero built and the artifact-missing signature (`"Rlib for"` plus
`"not found"`) is present, in which case `no_rlib`; with a non-zero exit
code it returns `partial` when the last summary shows built > 0,
otherwise `no_rlib` with counts `(0,0)` when the signature is present,
otherwise `failed` with counts `(0,0)`.  In particular
`("Done: 3/5 versions produced rlibs", 1)` yields `(partial, 3, 5)`. -/
theorem c2_classifier :
    (∀ (lt_ : String) (rc : Int),
      (rc = 0 → (findDone lt_.data).getLast? = none →
        classify_result lt_ rc = ("ok", 0, 0)) ∧
      (∀ b t, rc = 0 → (findDone lt_.data).getLast? = some (b, t) →
        (b = 0 ∧ strIn "Rlib for" lt_ = true ∧ strIn "not found" lt_ = true →
          classify_result lt_ rc = ("no_rlib", b, t)) ∧
        (¬(b = 0 ∧ strIn "Rlib for" lt_ = true ∧ strIn "not found" lt_ = true) →
          classify_result lt_ rc = ("ok", b, t))) ∧
      (∀ b t, rc ≠ 0 → (findDone lt_.data).getLast? = some (b, t) → 0 < b →
        classify_result lt_ rc = ("partial", b, t)) ∧
      (rc ≠ 0 →
        ((findDone lt_.data).getLast? = none ∨
          (∃ t, (findDone lt_.data).getLast? = some (0, t))) →
        (strIn "Rlib for" lt_ = true ∧ strIn "not found" lt_ = true →
          classify_result lt_ rc = ("no_rlib", 0, 0)) ∧
        (¬(strIn "Rlib for" lt_ = true ∧ strIn "not found" lt_ = true) →
          classify_result lt_ rc = ("failed", 0, 0)))) ∧
    classify_result "Done: 3/5 versions produced rlibs" 1 = ("partial", 3, 5) ∧
    classify_result "" 0 = ("ok", 0, 0) ∧
    classify_result "Rlib for x:1.0.0 [sbfv1] not found at path" 1 = ("no_rlib", 0, 0) := by
  refine ⟨fun lt_ rc => ⟨?_, ?_, ?_, ?_⟩, by decide, by decide, by decide⟩
  · intro h0 hnone
    simp [classify_result, h0, hnone]
  · intro b t h0 hsome
    subst h0
    constructor
    · rintro ⟨hb, h1, h2⟩
      subst hb
      simp [classify_result, hsome, h1, h2]
    · intro hn
      rcases hb : decide (b = 0) with _ | _
      · simp at hb
        simp [classify_result, hsome, hb]
      · simp at hb
        subst hb
        rcases h1 : strIn "Rlib for" lt_ with _ | _
        · simp [classify_result, hsome, h1]
        · rcases h2 : strIn "not found" lt_ with _ | _
          · simp [classify_result, hsome, h1, h2]
          · exact absurd ⟨rfl, h1, h2⟩ hn
  · intro b t hrc hsome hb
    simp [classify_result, hrc, hsome, hb]
  · intro hrc hcase
    constructor
    · rintro ⟨h1, h2⟩
      rcases hcase with hnone | ⟨t, hsome⟩
      · simp [classify_result, hrc, hnone, h1, h2]
      · simp [classify_result, hrc, hsome, h1, h2]
    · intro hn
      have : strIn "Rlib for" lt_ = false ∨ strIn "not found" lt_ = false := by
        rcases h1 : strIn "Rlib for" lt_ with _ | _
        · exact Or.inl rfl
        · rcases h2 : strIn "not found" lt_ with _ | _
          · exact Or.inr rfl
          · exact absurd ⟨h1, h2⟩ hn
      rcases hcase with hnone | ⟨t, hsome⟩
      · rcases this with hf | hf <;> simp [classify_result, hrc, hnone, hf]
      · rcases this with hf | hf <;> simp [classify_result, hrc, hsome, hf]

/-- Witness for C2: exit code zero with no summary line classifies as
`(ok, 0, 0)`. -/
theorem c2_classifier_witness :
    classify_result "building crate foo" 0 = ("ok", 0, 0) :=
  (c2_classifier.1 "building crate foo" 0).1 rfl (by decide)

/-! ## Compatibility Patch Engine (build_crate.py:149-201)

The build directory's mutable files are `Cargo.toml` (always present for
a fetched crate) and `Cargo.lock` (possibly absent).  Each patch function
returns the new file-system state together with the `True`/`False`
"did I mutate anything" flag the source returns. -/

/-- The mutable per-crate build-directory state. -/
structure CrateFS where
  cargoToml : String
  cargoLock : Option String
deriving DecidableEq, Repr

/-- `"use of unstable library feature 'build_hasher_simple_hash_one'"`. -/
def AHASH_HINT : String := "use of unstable library feature 'build_hasher_simple_hash_one'"

/-- Lockfile-format-too-new failure signature. -/
def LOCKFILE_V4_HINT : String := "lock file version 4 requires `-Znext-lockfile-bump`"

/-- First edition-2024 failure signature. -/
def EDITION_2024_HINT1 : String := "feature `edition2024` is required"

/-- Second edition-2024 failure signature. -/
def EDITION_2024_HINT2 : String := "older than the `2024` edition"

/-- The exact `blake3` 1.8.3 `Cargo.lock` block (build_crate.py:35-48). -/
def BLAKE3_LOCK_V183 : String :=
  "name = \"blake3\"\nversion = \"1.8.3\"\nsource = \"registry+https://github.com/rust-lang/crates.io-index\"\nchecksum = \"2468ef7d57b3fb7e16b576e8377cdbde2320c60e1491e961d11da40fc4f02a2d\"\ndependencies = [\n \"arrayref\",\n \"arrayvec\",\n \"cc\",\n \"cfg-if\",\n \"constant_time_eq\",\n \"cpufeatures\",\n \"digest 0.10.7\",\n]\n"

/-- The pinned `blake3` 1.8.2 `Cargo.lock` block (build_crate.py:50-62). -/
def BLAKE3_LOCK_V182 : String :=
  "name = \"blake3\"\nversion = \"1.8.2\"\nsource = \"registry+https://github.com/rust-lang/crates.io-index\"\nchecksum = \"3888aaa89e4b2a40fca9848e400f6a658a5a3978de7be858e209cafa8be9a4a0\"\ndependencies = [\n \"arrayref\",\n \"arrayvec\",\n \"cc\",\n \"cfg-if\",\n \"constant_time_eq\",\n \"digest 0.10.7\",\n]\n"

/-- Python `txt.replace(old, new, 1)` (first occurrence only; the callers
pass a non-empty `old`). -/
def replaceFirstL (old repl : List Char) : List Char → List Char
  | [] => []
  | c :: t =>
    if old.isPrefixOf (c :: t) then repl ++ (c :: t).drop old.length
    else c :: replaceFirstL old repl t

/-- Python `txt.replace(old, new)` (all occurrences; the callers pass a
non-empty `old`, so the length fuel never runs out early). -/
def replaceAllAux (old repl : List Char) : Nat → List Char → List Char
  | 0, s => s
  | _, [] => []
  | fuel + 1, c :: t =>
    if old.isPrefixOf (c :: t) then repl ++ replaceAllAux old repl fuel ((c :: t).drop old.length)
    else c :: replaceAllAux old repl fuel t

/-- Python `txt.replace(old, new)` on strings. -/
def replaceAll (old repl s : String) : String :=
  String.mk (replaceAllAux old.data repl.data s.data.length s.data)

/-- `apply_ahash_patch` (build_crate.py:149-157): append a pinned
`ahash` dependency to `Cargo.toml` unless the pin marker is present. -/
def apply_ahash_patch (fs : CrateFS) : CrateFS × Bool :=
  if strIn "ahash = \"=0.8.6\"" fs.cargoToml then (fs, false)
  else ({ fs with cargoToml := fs.cargoToml ++ "\n[dependencies]\nahash = \"=0.8.6\"\n" }, true)

/-- `apply_blake3_pin_patch` (build_crate.py:160-171): pin `blake3` in
`Cargo.toml` under `[patch.crates-io]` unless the pin is present. -/
def apply_blake3_pin_patch (fs : CrateFS) : CrateFS × Bool :=
  if strIn "blake3 = \"=1.8.2\"" fs.cargoToml then (fs, false)
  else if strIn "[patch.crates-io]" fs.cargoToml then
    ({ fs with cargoToml := fs.cargoToml ++ "\nblake3 = \"=1.8.2\"\n" }, true)
  else
    ({ fs with cargoToml := fs.cargoToml ++ "\n[patch.crates-io]\nblake3 = \"=1.8.2\"\n" }, true)

/-- `drop_lockfile` (build_crate.py:174-179): delete `Cargo.lock` if it
exists. -/
def drop_lockfile (fs : CrateFS) : CrateFS × Bool :=
  match fs.cargoLock with
  | none => (fs, false)
  | some _ => ({ fs with cargoLock := none }, true)

/-- `downgrade_lockfile_v4` (build_crate.py:182-189): rewrite the first
`version = 4` occurrence in `Cargo.lock` to `version = 3`; no mutation
when the file is absent or the token does not occur. -/
def downgrade_lockfile_v4 (fs : CrateFS) : CrateFS × Bool :=
  match fs.cargoLock with
  | none => (fs, false)
  | some txt =>
    if strIn "version = 4" txt then
      let newTxt := String.mk (replaceFirstL "version = 4".data "version = 3".data txt.data)
      ({ fs with cargoLock := some newTxt }, true)
    else (fs, false)

/-- `patch_blake3_lock` (build_crate.py:193-201): replace the exact
`blake3` 1.8.3 lock block with the 1.8.2 block; no mutation when the
file is absent or the block does not occur. -/
def patch_blake3_lock (fs : CrateFS) : CrateFS × Bool :=
  match fs.cargoLock with
  | none => (fs, false)
  | some txt =>
    if strIn BLAKE3_LOCK_V183 txt then
      ({ fs with cargoLock := some (replaceAll BLAKE3_LOCK_V183 BLAKE3_LOCK_V182 txt) }, true)
    else (fs, false)

/-! ## Build Attempt Orchestrator: `build_crate` (build_crate.py:245-342) -/

/-- The `patched_*` flags local to one architecture's attempt loop
(build_crate.py:288-290). -/
structure PatchFlags where
  ahash : Bool
  blake3 : Bool
  blake3Toml : Bool
deriving DecidableEq, Repr

/-- Which patch function reported a mutation in one patch phase. -/
inductive PatchKind where
  | ahashPin
  | lockDowngrade
  | lockDrop
  | blake3Lock
  | blake3Pin
deriving DecidableEq, Repr

/-- The edition-2024 branch of the patch phase (build_crate.py:316-325):
try the `blake3` lock rewrite, then the `Cargo.toml` pin. -/
def tryBlake (flags : PatchFlags) (fs : CrateFS) (status : String) :
    PatchFlags × CrateFS × List PatchKind :=
  if !flags.blake3 && (strIn EDITION_2024_HINT1 status || strIn EDITION_2024_HINT2 status) then
    let r := patch_blake3_lock fs
    if r.2 then ({ flags with blake3 := true }, r.1, [.blake3Lock])
    else
      let flags1 := { flags with blake3 := false }
      if !flags1.blake3Toml then
        let r2 := apply_blake3_pin_patch r.1
        if r2.2 then ({ flags1 with blake3Toml := true }, r2.1, [.blake3Pin])
        else ({ flags1 with blake3Toml := false }, r2.1, [])
      else (flags1, r.1, [])
  else (flags, fs, [])

/-- The lockfile branch of the patch phase (build_crate.py:308-314):
downgrade `version = 4`, else drop the lockfile, else fall through to
the edition branch. -/
def tryLock (flags : PatchFlags) (fs : CrateFS) (status : String) :
    PatchFlags × CrateFS × List PatchKind :=
  if strIn LOCKFILE_V4_HINT status then
    let r := downgrade_lockfile_v4 fs
    if r.2 then (flags, r.1, [.lockDowngrade])
    else
      let r2 := drop_lockfile r.1
      if r2.2 then (flags, r2.1, [.lockDrop])
      else tryBlake flags r2.1 status
  else tryBlake flags fs status

/-- The full patch phase after a failed attempt (build_crate.py:302-327):
the ahash branch, then the lockfile branch, then the edition branch; the
returned list holds the patch that reported a mutation (the loop
continues exactly when it is non-empty). -/
def tryPatches (flags : PatchFlags) (fs : CrateFS) (status : String) :
    PatchFlags × CrateFS × List PatchKind :=
  if !flags.ahash && strIn AHASH_HINT status then
    let r := apply_ahash_patch fs
    if r.2 then ({ flags with ahash := true }, r.1, [.ahashPin])
    else tryLock { flags with ahash := false } r.1 status
  else tryLock flags fs status

/-- One build attempt as recorded by the model: the subprocess exit code
and captured text, and the patch (if any) that reported a mutation
afterwards. -/
structure AttemptStep where
  code : Int
  status : String
  mutated : List PatchKind
deriving Repr

/-- Result of one architecture's attempt loop. -/
structure LoopResult where
  built : Bool
  lastStatus : String
  flags : PatchFlags
  fs : CrateFS
  steps : List AttemptStep
deriving Repr

/-- The `for _attempt in range(1, 6)` loop of build_crate.py:293-327,
with the build subprocess abstracted as `oracle` (attempt index and
current tree to exit code and captured text).  The fuel is 5 at the call
site; the loop recurses only when the patch phase reported a mutation. -/
def attemptLoop (oracle : Nat → CrateFS → Int × String) :
    Nat → Nat → PatchFlags → CrateFS → String → LoopResult
  | 0, _, flags, fs, ls => ⟨false, ls, flags, fs, []⟩
  | fuel + 1, idx, flags, fs, _ls =>
    let r := oracle idx fs
    if r.1 = 0 then ⟨true, r.2, flags, fs, [⟨r.1, r.2, []⟩]⟩
    else
      let p := tryPatches flags fs r.2
      if p.2.2.isEmpty then ⟨false, r.2, p.1, p.2.1, [⟨r.1, r.2, p.2.2⟩]⟩
      else
        let rest := attemptLoop oracle fuel (idx + 1) p.1 p.2.1 r.2
        ⟨rest.built, rest.lastStatus, rest.flags, rest.fs, ⟨r.1, r.2, p.2.2⟩ :: rest.steps⟩

/-- `get_sbf_archs_for_version` → `get_target_triple_for_arch`
(build_crate.py:238-242). -/
def get_target_triple_for_arch (sbf_arch : String) : String :=
  if sbf_arch = "sbfv2" then "sbpfv3-solana-solana" else "sbf-solana-solana"

/-- `crate.replace("-", "_")` (single-character replacement is a
character map). -/
def underscore (s : String) : String :=
  String.mk (s.data.map (fun c => if c = '-' then '_' else c))

/-- `f"lib{crate.replace('-', '_')}.rlib"` (build_crate.py:277). -/
def rlib_name (crate : String) : String := "lib" ++ underscore crate ++ ".rlib"

/-- The expected rlib path for one architecture (build_crate.py:334-335),
relative to the script directory. -/
def rlibArchPath (crate version sbf_arch : String) : String :=
  "crates/" ++ crate ++ "-" ++ version ++ "/target/" ++
    get_target_triple_for_arch sbf_arch ++ "/release/" ++ rlib_name crate

/-- One architecture iteration of build_crate.py:281-339, folding the
tree state, the `last_status` variable and the collected
`built_rlibs`.  `artifactHas` tells whether the expected rlib file
exists after a successful build (the artifact check of lines 336-339). -/
def buildArchStep (oracle : String → Nat → CrateFS → Int × String)
    (artifactHas : String → Bool) (crate version : String)
    (acc : CrateFS × String × List (String × String)) (sbf_arch : String) :
    CrateFS × String × List (String × String) :=
  let r := attemptLoop (oracle sbf_arch) 5 1 ⟨false, false, false⟩ acc.1 acc.2.1
  if r.built then
    if artifactHas (rlibArchPath crate version sbf_arch) then
      (r.fs, r.lastStatus, acc.2.2 ++ [(sbf_arch, rlibArchPath crate version sbf_arch)])
    else (r.fs, r.lastStatus, acc.2.2)
  else (r.fs, r.lastStatus, acc.2.2)

/-- `build_crate` after its host/toolchain/source preconditions
(build_crate.py:277-342): iterate the architectures, then
`success = len(built_rlibs) > 0`. -/
def build_crate_model (oracle : String → Nat → CrateFS → Int × String)
    (artifactHas : String → Bool) (crate version : String)
    (sbf_archs : List String) (fs0 : CrateFS) :
    Bool × String × List (String × String) :=
  let acc := sbf_archs.foldl (buildArchStep oracle artifactHas crate version) (fs0, "", [])
  (!acc.2.2.isEmpty, acc.2.1, acc.2.2)

theorem tryBlake_mut_le (flags : PatchFlags) (fs : CrateFS) (status : String) :
    (tryBlake flags fs status).2.2.length ≤ 1 := by
  unfold tryBlake
  dsimp only
  repeat' split
  all_goals simp

theorem tryLock_mut_le (flags : PatchFlags) (fs : CrateFS) (status : String) :
    (tryLock flags fs status).2.2.length ≤ 1 := by
  unfold tryLock
  dsimp only
  repeat' split
  all_goals try simp
  all_goals apply tryBlake_mut_le

theorem tryPatches_mut_le (flags : PatchFlags) (fs : CrateFS) (status : String) :
    (tryPatches flags fs status).2.2.length ≤ 1 := by
  unfold tryPatches
  dsimp only
  repeat' split
  all_goals try simp
  all_goals apply tryLock_mut_le

theorem attemptLoop_steps_le (oracle : Nat → CrateFS → Int × String) :
    ∀ (fuel idx : Nat) (flags : PatchFlags) (fs : CrateFS) (ls : String),
      (attemptLoop oracle fuel idx flags fs ls).steps.length ≤ fuel := by
  intro fuel
  induction fuel with
  | zero => intro idx flags fs ls; simp [attemptLoop]
  | succ n ih =>
    intro idx flags fs ls
    unfold attemptLoop
    dsimp only
    split
    · simp
    · split
      · simp
      · simpa using ih (idx + 1) _ _ _

/-- The loop proceeds past a step only when that step failed and its
patch phase reported a mutation. -/
def contSteps : List AttemptStep → Bool
  | [] => true
  | [_] => true
  | s :: r :: rest => (s.code != 0) && !s.mutated.isEmpty && contSteps (r :: rest)

theorem attemptLoop_contSteps (oracle : Nat → CrateFS → Int × String) :
    ∀ (fuel idx : Nat) (flags : PatchFlags) (fs : CrateFS) (ls : String),
      contSteps (attemptLoop oracle fuel idx flags fs ls).steps = true := by
  intro fuel
  induction fuel with
  | zero => intro idx flags fs ls; simp [attemptLoop, contSteps]
  | succ n ih =>
    intro idx flags fs ls
    unfold attemptLoop
    dsimp only
    split
    · simp [contSteps]
    · split
      · simp [contSteps]
      · rename_i hfail hne
        have hrec := ih (idx + 1) (tryPatches flags fs (oracle idx fs).2).1
          (tryPatches flags fs (oracle idx fs).2).2.1 (oracle idx fs).2
        rcases hsteps : (attemptLoop oracle n (idx + 1) (tryPatches flags fs (oracle idx fs).2).1
            (tryPatches flags fs (oracle idx fs).2).2.1 (oracle idx fs).2).steps with
          _ | ⟨s, rest⟩
        · simp [contSteps, hsteps]
        · rw [hsteps] at hrec
          simp [contSteps, hsteps, hrec, hfail, hne]

theorem attemptLoop_steps_mut_le (oracle : Nat → CrateFS → Int × String) :
    ∀ (fuel idx : Nat) (flags : PatchFlags) (fs : CrateFS) (ls : String),
      ∀ s ∈ (attemptLoop oracle fuel idx flags fs ls).steps, s.mutated.length ≤ 1 := by
  intro fuel
  induction fuel with
  | zero => intro idx flags fs ls s hs; simp [attemptLoop] at hs
  | succ n ih =>
    intro idx flags fs ls s hs
    unfold attemptLoop at hs
    dsimp only at hs
    split at hs
    · simp at hs
      simp [hs]
    · split at hs
      · simp at hs
        rw [hs]
        exact tryPatches_mut_le _ _ _
      · simp only [List.mem_cons] at hs
        rcases hs with hs | hs
        · rw [hs]
          exact tryPatches_mut_le _ _ _
        · exact ih (idx + 1) _ _ _ s hs

theorem attemptLoop_fail (oracle : Nat → CrateFS → Int × String) :
    ∀ (fuel idx : Nat) (flags : PatchFlags) (fs : CrateFS) (ls : String),
      (attemptLoop oracle fuel idx flags fs ls).built = false →
      (attemptLoop oracle fuel idx flags fs ls).steps.length = fuel ∨
      ∃ s, (attemptLoop oracle fuel idx flags fs ls).steps.getLast? = some s ∧
        s.code ≠ 0 ∧ s.mutated = [] := by
  intro fuel
  induction fuel with
  | zero => intro idx flags fs ls _; left; simp [attemptLoop]
  | succ n ih =>
    intro idx flags fs ls hb
    unfold attemptLoop at hb ⊢
    dsimp only at hb ⊢
    split at hb
    · simp at hb
    · rename_i hfail
      split at hb
      · rename_i hmut
        rw [if_neg hfail, if_pos hmut]
        right
        exact ⟨⟨(oracle idx fs).1, (oracle idx fs).2, (tryPatches flags fs (oracle idx fs).2).2.2⟩,
          by simp, hfail, List.isEmpty_iff.mp hmut⟩
      · rename_i hmut
        rw [if_neg hfail, if_neg hmut]
        simp only at hb
        rcases ih (idx + 1) (tryPatches flags fs (oracle idx fs).2).1
            (tryPatches flags fs (oracle idx fs).2).2.1 (oracle idx fs).2 hb with
          hlen | ⟨s, hl, hc, hm⟩
        · left
          simp [hlen]
        · right
          refine ⟨s, ?_, hc, hm⟩
          rcases hsteps : (attemptLoop oracle n (idx + 1) (tryPatches flags fs (oracle idx fs).2).1
              (tryPatches flags fs (oracle idx fs).2).2.1 (oracle idx fs).2).steps with _ | ⟨a, t⟩
          · rw [hsteps] at hl
            simp at hl
          · rw [hsteps] at hl
            simp [hsteps, List.getLast?_cons_cons, hl]

/-- C3: the per-architecture retry loop of `build_crate` runs at most 5
build attempts; each failed attempt applies at most one mutating patch;
the loop proceeds to another attempt only when that attempt failed and a
patch function reported a mutation; and when it ends unbuilt it either
exhausted the 5 attempts or its final attempt failed with no patch
reporting a mutation (so the architecture is recorded as failed). -/
theorem c3_retry_bound (oracle : Nat → CrateFS → Int × String) (flags : PatchFlags)
    (fs : CrateFS) (ls : String) :
    (attemptLoop oracle 5 1 flags fs ls).steps.length ≤ 5 ∧
    (∀ s ∈ (attemptLoop oracle 5 1 flags fs ls).steps, s.mutated.length ≤ 1) ∧
    contSteps (attemptLoop oracle 5 1 flags fs ls).steps = true ∧
    ((attemptLoop oracle 5 1 flags fs ls).built = false →
      (attemptLoop oracle 5 1 flags fs ls).steps.length = 5 ∨
      ∃ s, (attemptLoop oracle 5 1 flags fs ls).steps.getLast? = some s ∧
        s.code ≠ 0 ∧ s.mutated = []) :=
  ⟨attemptLoop_steps_le oracle 5 1 flags fs ls,
   attemptLoop_steps_mut_le oracle 5 1 flags fs ls,
   attemptLoop_contSteps oracle 5 1 flags fs ls,
   attemptLoop_fail oracle 5 1 flags fs ls⟩

/-- Witness for C3: with a build that always fails with the ahash
signature, the loop stops after the second attempt (the ahash pin can
only mutate once), ending on a failed attempt with no mutation. -/
theorem c3_retry_bound_witness :
    (attemptLoop (fun _ _ => (1, AHASH_HINT)) 5 1 ⟨false, false, false⟩
        ⟨"", none⟩ "").steps.length = 5 ∨
    ∃ s, (attemptLoop (fun _ _ => (1, AHASH_HINT)) 5 1 ⟨false, false, false⟩
        ⟨"", none⟩ "").steps.getLast? = some s ∧ s.code ≠ 0 ∧ s.mutated = [] :=
  (c3_retry_bound (fun _ _ => (1, AHASH_HINT)) ⟨false, false, false⟩ ⟨"", none⟩ "").2.2.2
    (by decide)

/-- C8: when an architecture's build loop ends built (the subprocess
exited 0) but the expected rlib at the architecture's target-triple path
is absent, the architecture contributes no artifact, and with a
single-architecture set `build_crate` returns `success = false` with an
empty artifact list. -/
theorem c8_artifact_check_priority (oracle : String → Nat → CrateFS → Int × String)
    (artifactHas : String → Bool) (crate version sbf_arch : String) (fs0 : CrateFS)
    (hbuilt : (attemptLoop (oracle sbf_arch) 5 1 ⟨false, false, false⟩ fs0 "").built = true)
    (habs : artifactHas (rlibArchPath crate version sbf_arch) = false) :
    build_crate_model oracle artifactHas crate version [sbf_arch] fs0 =
      (false, (attemptLoop (oracle sbf_arch) 5 1 ⟨false, false, false⟩ fs0 "").lastStatus, []) := by
  unfold build_crate_model
  simp [buildArchStep, hbuilt, habs]

/-- Witness for C8: a build that immediately exits 0 while the expected
rlib file is absent yields overall failure and no recorded artifacts. -/
theorem c8_artifact_check_priority_witness :
    build_crate_model (fun _ _ _ => (0, "ok")) (fun _ => false) "spl-token" "4.0.0"
        ["sbfv1"] ⟨"", none⟩ = (false, "ok", []) :=
  c8_artifact_check_priority (fun _ _ _ => (0, "ok")) (fun _ => false) "spl-token" "4.0.0"
    "sbfv1" ⟨"", none⟩ (by decide) rfl

/-- C9: on the lockfile-format signature the patch engine first rewrites
the lockfile's first `version = 4` token to `version = 3` in place; it
deletes the lockfile exactly when the lockfile exists but lacks that
token; both patch functions report whether they mutated, and neither
mutates when the lockfile is absent.  The final conjunct shows the
substitution touches only the first occurrence. -/
theorem c9_lockfile_patch :
    (∀ fs : CrateFS, fs.cargoLock = none →
      downgrade_lockfile_v4 fs = (fs, false) ∧ drop_lockfile fs = (fs, false)) ∧
    (∀ (fs : CrateFS) (txt : String), fs.cargoLock = some txt →
      strIn "version = 4" txt = true →
      (downgrade_lockfile_v4 fs).2 = true ∧
      (downgrade_lockfile_v4 fs).1.cargoToml = fs.cargoToml ∧
      (downgrade_lockfile_v4 fs).1.cargoLock =
        some (String.mk (replaceFirstL "version = 4".data "version = 3".data txt.data))) ∧
    (∀ (fs : CrateFS) (txt : String), fs.cargoLock = some txt →
      strIn "version = 4" txt = false →
      downgrade_lockfile_v4 fs = (fs, false)) ∧
    (∀ (flags : PatchFlags) (fs : CrateFS) (txt status : String),
      strIn LOCKFILE_V4_HINT status = true → fs.cargoLock = some txt →
      strIn "version = 4" txt = false →
      tryLock flags fs status = (flags, { fs with cargoLock := none }, [.lockDrop])) ∧
    (∀ (flags : PatchFlags) (fs : CrateFS) (txt status : String),
      strIn LOCKFILE_V4_HINT status = true → fs.cargoLock = some txt →
      strIn "version = 4" txt = true →
      tryLock flags fs status = (flags, (downgrade_lockfile_v4 fs).1, [.lockDowngrade])) ∧
    String.mk (replaceFirstL "version = 4".data "version = 3".data
        "version = 4\npkg\nversion = 4\n".data) = "version = 3\npkg\nversion = 4\n" := by
  refine ⟨?_, ?_, ?_, ?_, ?_, by decide⟩
  · intro fs h
    constructor
    · simp [downgrade_lockfile_v4, h]
    · simp [drop_lockfile, h]
  · intro fs txt hl ht
    simp [downgrade_lockfile_v4, hl, ht]
  · intro fs txt hl ht
    simp [downgrade_lockfile_v4, hl, ht]
  · intro flags fs txt status hs hl ht
    simp [tryLock, hs, downgrade_lockfile_v4, hl, ht, drop_lockfile]
  · intro flags fs txt status hs hl ht
    simp [tryLock, hs, downgrade_lockfile_v4, hl, ht]

/-- Witness for C9: with the signature present and a lockfile lacking the
`version = 4` token, the engine deletes the lockfile. -/
theorem c9_lockfile_patch_witness :
    tryLock ⟨false, false, false⟩ ⟨"toml", some "version = 3\n"⟩ LOCKFILE_V4_HINT =
      (⟨false, false, false⟩, ⟨"toml", none⟩, [.lockDrop]) :=
  c9_lockfile_patch.2.2.2.1 ⟨false, false, false⟩ ⟨"toml", some "version = 3\n"⟩
    "version = 3\n" LOCKFILE_V4_HINT (by decide) rfl (by decide)

/-! ## Architecture-set derivation: `get_sbf_archs_for_version`
(build_crate.py:223-235) -/

/-- The digit/underscore tail of a Python integer literal body: after a
digit, single underscores may separate digit groups. -/
def pyIntDigitsGo (acc : Nat) : List Char → Option Nat
  | [] => some acc
  | '_' :: d :: t =>
    if d.isDigit then pyIntDigitsGo (acc * 10 + (d.toNat - '0'.toNat)) t else none
  | ['_'] => none
  | d :: t =>
    if d.isDigit then pyIntDigitsGo (acc * 10 + (d.toNat - '0'.toNat)) t else none

/-- A non-empty digit string with optional single grouping underscores,
as accepted by Python `int`. -/
def pyIntDigits : List Char → Option Nat
  | [] => none
  | c :: t => if c.isDigit then pyIntDigitsGo (c.toNat - '0'.toNat) t else none

/-- Python `int(s)`: strip surrounding whitespace, allow one sign, then a
digit string (`ValueError` is `none`). -/
def pyInt (s : List Char) : Option Int :=
  match stripWs s with
  | '+' :: t => (pyIntDigits t).map (fun n => (n : Int))
  | '-' :: t => (pyIntDigits t).map (fun n => -(n : Int))
  | t => (pyIntDigits t).map (fun n => (n : Int))

/-- `crate_version.split(".")[0]` (`split` always yields at least one
piece, so the index cannot fail). -/
def firstComponent (s : List Char) : List Char :=
  (splitAll '.' s).headD []

/-- `get_sbf_archs_for_version` (build_crate.py:223-235): `["sbfv2"]`
when the leading dotted component parses as an integer ≥ 2, `["sbfv1"]`
otherwise, including on parse failure. -/
def get_sbf_archs_for_version (crate_version : String) : List String :=
  match pyInt (firstComponent crate_version.data) with
  | some major => if 2 ≤ major then ["sbfv2"] else ["sbfv1"]
  | none => ["sbfv1"]

/-- C10: `get_sbf_archs_for_version` is total and always yields a
single-element architecture list: `["sbfv2"]` exactly when the leading
dotted component parses (as Python `int`) to an integer ≥ 2, and
`["sbfv1"]` in every other case, parse failures included.  The closing
conjuncts evaluate the function on edge inputs: an empty string, a
non-numeric leading component, and a negative major. -/
theorem c10_arch_derivation_total :
    (∀ v : String, (get_sbf_archs_for_version v).length = 1) ∧
    (∀ v : String, get_sbf_archs_for_version v = ["sbfv1"] ∨
      get_sbf_archs_for_version v = ["sbfv2"]) ∧
    (∀ v : String, get_sbf_archs_for_version v = ["sbfv2"] ↔
      ∃ n : Int, pyInt (firstComponent v.data) = some n ∧ 2 ≤ n) ∧
    get_sbf_archs_for_version "" = ["sbfv1"] ∧
    get_sbf_archs_for_version "abc.def" = ["sbfv1"] ∧
    get_sbf_archs_for_version "-3.0.1" = ["sbfv1"] ∧
    get_sbf_archs_for_version "1.18.16" = ["sbfv1"] ∧
    get_sbf_archs_for_version "2.0.1" = ["sbfv2"] ∧
    get_sbf_archs_for_version "10" = ["sbfv2"] := by
  refine ⟨?_, ?_, ?_, by decide, by decide, by decide, by decide, by decide, by decide⟩
  · intro v
    unfold get_sbf_archs_for_version
    rcases pyInt (firstComponent v.data) with _ | n
    · simp
    · dsimp only
      split <;> simp
  · intro v
    unfold get_sbf_archs_for_version
    rcases pyInt (firstComponent v.data) with _ | n
    · simp
    · dsimp only
      split <;> simp
  · intro v
    unfold get_sbf_archs_for_version
    rcases hp : pyInt (firstComponent v.data) with _ | n
    · simp
    · dsimp only
      split
      · rename_i hn
        simp
        omega
      · rename_i hn
        simp
        omega

/-- Witness for C10: the characterization applied at `"2.0.1"`. -/
theorem c10_arch_derivation_total_witness :
    get_sbf_archs_for_version "2.0.1" = ["sbfv2"] :=
  (c10_arch_derivation_total.2.2.1 "2.0.1").mpr ⟨2, by decide, by decide⟩

/-! ## Compiler fallback: `needs_compiler_fallback` and the per-version
compiler loop (get-rlibs-from-crate.py:90-98, 182-217) -/

/-- `needs_compiler_fallback(status)` (get-rlibs-from-crate.py:90-98). -/
def needs_compiler_fallback (status : String) : Bool :=
  strIn "requires rustc" status ||
  strIn "feature `edition2024` is required" status ||
  strIn "older than the `2024` edition" status ||
  strIn "lock file version 4 requires `-Znext-lockfile-bump`" status ||
  strIn "unknown feature `proc_macro_span_shrink`" status

/-- The `compiler_versions` list built in get-rlibs-from-crate.py:182-186:
the primary, then the fallback when fallback is enabled, non-empty, and
not already listed. -/
def compiler_versions (primary fallback : String) (disable : Bool) : List String :=
  if !disable && !(fallback == "") then
    (if [primary].contains fallback then [primary] else [primary] ++ [fallback])
  else [primary]

/-- The `for i, compiler_version in enumerate(compiler_versions)` loop of
get-rlibs-from-crate.py:191-210, with the crate build abstracted as
`build` (compiler version to (ok, status)).  Returns `(built,
last_status, attempted compilers in order)`.  On failure the loop breaks
early when a further candidate exists but the status is not
fallback-eligible. -/
def compilerLoopAux (build : String → Bool × String) (total : Nat) :
    Nat → String → List String → Bool × String × List String
  | _, ls, [] => (false, ls, [])
  | i, _ls, cv :: rest =>
    if (build cv).1 then (true, (build cv).2, [cv])
    else if i + 1 < total && !needs_compiler_fallback (build cv).2 then
      (false, (build cv).2, [cv])
    else
      ((compilerLoopAux build total (i + 1) (build cv).2 rest).1,
       (compilerLoopAux build total (i + 1) (build cv).2 rest).2.1,
       cv :: (compilerLoopAux build total (i + 1) (build cv).2 rest).2.2)

/-- One crate+version's compiler-attempt sequence
(get-rlibs-from-crate.py:182-210). -/
def buildOneVersion (build : String → Bool × String) (primary fallback : String)
    (disable : Bool) : Bool × String × List String :=
  let cvs := compiler_versions primary fallback disable
  compilerLoopAux build cvs.length 0 "" cvs

/-- C7: with the fallback enabled and distinct from the primary, when the
primary build fails the fallback compiler is attempted if and only if
the captured failure text matches a fallback-eligible signature; on a
non-matching failure the orchestrator stops after the primary, reporting
failure with the primary's captured text. -/
theorem c7_fallback_iff_signature (build : String → Bool × String)
    (primary fallback : String) (hne : fallback ≠ "") (hdist : fallback ≠ primary) :
    ((build primary).1 = false →
      ((buildOneVersion build primary fallback false).2.2 = [primary, fallback] ↔
        needs_compiler_fallback (build primary).2 = true) ∧
      (needs_compiler_fallback (build primary).2 = false →
        buildOneVersion build primary fallback false =
          (false, (build primary).2, [primary]))) ∧
    ((build primary).1 = true →
      (buildOneVersion build primary fallback false).2.2 = [primary]) := by
  have hcv : compiler_versions primary fallback false = [primary, fallback] := by
    simp [compiler_versions, hne]
    intro h
    exact absurd h hdist
  have hbv : buildOneVersion build primary fallback false =
      compilerLoopAux build 2 0 "" [primary, fallback] := by
    unfold buildOneVersion
    rw [hcv]
    rfl
  constructor
  · intro hfail
    constructor
    · constructor
      · intro hatt
        by_contra hns
        simp only [Bool.not_eq_true] at hns
        rw [hbv] at hatt
        unfold compilerLoopAux at hatt
        simp [hfail, hns] at hatt
      · intro hsig
        rw [hbv]
        unfold compilerLoopAux
        simp [hfail, hsig]
        unfold compilerLoopAux
        rcases hb2 : (build fallback).1 <;> simp [hb2, compilerLoopAux]
    · intro hsig
      rw [hbv]
      unfold compilerLoopAux
      simp [hfail, hsig]
  · intro hok
    rw [hbv]
    unfold compilerLoopAux
    simp [hok]

/-- Witness for C7: a primary failure whose text matches no
fallback-eligible signature stops after the primary compiler. -/
theorem c7_fallback_iff_signature_witness :
    buildOneVersion (fun cv => if cv = "1.18.16" then (false, "linker not found") else (true, ""))
        "1.18.16" "1.17.0" false = (false, "linker not found", ["1.18.16"]) :=
  ((c7_fallback_iff_signature
      (fun cv => if cv = "1.18.16" then (false, "linker not found") else (true, ""))
      "1.18.16" "1.17.0" (by decide) (by decide)).1 (by decide)).2 (by decide)

/-! ## Batch driver: skip/record logic of `main`
(build-rlibs-latest.py:559-606) -/

/-- The previously-recorded statuses that cause a crate to be skipped
without `--force` (the set literal at build-rlibs-latest.py:562). -/
def TERMINAL_STATUSES : List String := ["ok", "partial", "no_rlib", "failed"]

/-- Replace-or-insert into the `state["crates"]` mapping (Python dict
assignment), modelled on an association list. -/
def upsert (m : List (String × String)) (k v : String) : List (String × String) :=
  match m with
  | [] => [(k, v)]
  | (k0, v0) :: rest => if k0 = k then (k, v) :: rest else (k0, v0) :: upsert rest k v

/-- One iteration of the crate loop of build-rlibs-latest.py:559-606,
reduced to its skip/record effect on the per-crate status map: `crates`
is the persisted status map, `versions` the resolver's answer, and
`(rc, logText)` the captured build outcome.  Returns the updated map and
whether the crate was skipped. -/
def process_crate (force : Bool) (crates : List (String × String)) (crate : String)
    (versions : List String) (rc : Int) (logText : String) :
    List (String × String) × Bool :=
  let prev := crates.lookup crate
  if !force && (match prev with
      | some s => TERMINAL_STATUSES.contains s
      | none => false) then
    (crates, true)
  else if versions.isEmpty then
    (upsert crates crate "failed", false)
  else
    (upsert crates crate (classify_result logText rc).1, false)

theorem lookup_upsert (m : List (String × String)) (k v : String) :
    (upsert m k v).lookup k = some v := by
  induction m with
  | nil => simp [upsert]
  | cons kv rest ih =>
    unfold upsert
    split
    · simp [List.lookup]
    · rename_i hne
      have hb : (k == kv.1) = false := by
        rw [beq_eq_false_iff_ne]
        exact fun h => hne h.symm
      simp [List.lookup, hb, ih]

/-- C6 counterexample: without `--force`, a crate whose persisted record
has status `failed` is *skipped* — no new record is written — refuting
the claim that only prior successes are skipped and failed crates are
re-processed. -/
theorem c6_skip_counterexample :
    process_crate false [("solana-program", "failed")] "solana-program" ["2.3.0"] 0
        "Done: 1/1 versions produced rlibs" =
      ([("solana-program", "failed")], true) := by
  decide

/-- C6 as amended: without `--force` a crate is skipped exactly when its
persisted record's status is one of `ok`, `partial`, `no_rlib` or
`failed` (any recorded terminal status, not only successes); a skipped
crate's map is left untouched; and every non-skipped crate gets its
record created or overwritten — with status `failed` when no versions
resolve, else the classifier's status. -/
theorem c6_skip_amended (force : Bool) (crates : List (String × String)) (crate : String)
    (versions : List String) (rc : Int) (logText : String) :
    ((process_crate force crates crate versions rc logText).2 = true ↔
      force = false ∧ ∃ s, crates.lookup crate = some s ∧ s ∈ TERMINAL_STATUSES) ∧
    ((process_crate force crates crate versions rc logText).2 = true →
      (process_crate force crates crate versions rc logText).1 = crates) ∧
    ((process_crate force crates crate versions rc logText).2 = false →
      (process_crate force crates crate versions rc logText).1.lookup crate =
        some (if versions.isEmpty then "failed" else (classify_result logText rc).1)) := by
  have hcond : (!force && (match crates.lookup crate with
      | some s => TERMINAL_STATUSES.contains s
      | none => false)) = true ↔
      (force = false ∧ ∃ s, crates.lookup crate = some s ∧ s ∈ TERMINAL_STATUSES) := by
    rcases hl : crates.lookup crate with _ | s <;> rcases hf : force <;> simp [hl, hf]
  unfold process_crate
  dsimp only
  refine ⟨?_, ?_, ?_⟩
  · split
    · rename_i h
      simpa using hcond.mp h
    · rename_i h
      split <;> exact iff_of_false (by simp) (fun hr => h (hcond.mpr hr))
  · split
    · intro _
      rfl
    · intro h2
      split at h2 <;> simp at h2
  · split
    · intro h2
      simp at h2
    · intro _
      split <;> rename_i hv <;> simp [hv, lookup_upsert]
/-- Witness for C6 (amended): a crate with a prior `failed` record and no
force flag is reported as skipped with the map unchanged. -/
theorem c6_skip_amended_witness :
    ([("spl-memo", "failed")] : List (String × String)).lookup "spl-memo" = some "failed" ∧
    (process_crate false [("spl-memo", "failed")] "spl-memo" ["1.0.0"] 1 "").1 =
      [("spl-memo", "failed")] :=
  ⟨by decide,
   (c6_skip_amended false [("spl-memo", "failed")] "spl-memo" ["1.0.0"] 1 "").2.1 (by decide)⟩

/-! ## Run State Store: `save_state` (build-rlibs-latest.py:361-364)

`save_state` is embedded as a pure function from the in-memory state (and
the current clock reading) to the updated state plus the sequence of
file-system operations it performs, so that the write mechanism itself
(a single direct `write_text`, with no temporary file or rename) is part
of the observable result. -/

/-- A file-system operation the state store could perform. -/
inductive FsOp where
  | writeFile (path contents : String)
  | renameFile (src dst : String)
deriving DecidableEq, Repr

/-- Whether an operation is a rename (the atomic-replace ingredient). -/
def FsOp.isRenameOp : FsOp → Bool
  | .renameFile _ _ => true
  | .writeFile _ _ => false

/-- The persisted run-state document: the `meta` mapping (absent until
`setdefault` inserts it) and the per-crate records, reduced to their
status strings. -/
structure StateDoc where
  meta : Option (List (String × String))
  crates : List (String × String)
deriving DecidableEq, Repr

/-- A concrete rendering standing in for
`json.dumps(state, indent=2, sort_keys=True) + "\n"` (the exact JSON
formatting is irrelevant to the claims; only the fact that the full
document is written in one operation matters). -/
def encodeKVs (l : List (String × String)) : String :=
  l.foldl (fun acc kv => acc ++ "\"" ++ kv.1 ++ "\": \"" ++ kv.2 ++ "\", ") ""

/-- Serialize a full state document. -/
def encodeState (st : StateDoc) : String :=
  "\x7b\"crates\": \x7b" ++ encodeKVs st.crates ++ "\x7d, \"meta\": \x7b" ++
    encodeKVs (st.meta.getD []) ++ "\x7d\x7d\n"

/-- `save_state(path, state)` (build-rlibs-latest.py:361-364):
`state.setdefault("meta", {})`, set `meta["updated_at"]` to the clock
value, then `path.write_text(json.dumps(...))` — one direct write to the
final path. -/
def save_state (path : String) (st : StateDoc) (now : String) : StateDoc × List FsOp :=
  let meta1 := upsert (st.meta.getD []) "updated_at" now
  let st1 : StateDoc := { st with meta := some meta1 }
  (st1, [FsOp.writeFile path (encodeState st1)])

/-- C4 counterexample: on a concrete state, `save_state` performs exactly
one file-system operation — a direct `writeFile` to the final state-file
path — and no rename; there is no write-then-rename (or equivalent
atomic-replace) step, so the write is not atomic against a concurrent
reader. -/
theorem c4_save_state_counterexample :
    (save_state "run-state/latest-build-state.json"
        { meta := none, crates := [("spl-token", "ok")] } "2026-01-01T00:00:00Z").2 =
      [FsOp.writeFile "run-state/latest-build-state.json"
        (encodeState { meta := some [("updated_at", "2026-01-01T00:00:00Z")],
                       crates := [("spl-token", "ok")] })] ∧
    ((save_state "run-state/latest-build-state.json"
        { meta := none, crates := [("spl-token", "ok")] } "2026-01-01T00:00:00Z").2.all
      (fun op => ! op.isRenameOp)) = true := by
  constructor
  · rfl
  · rfl

/-- C4 as amended: `save_state` does update the `meta.updated_at`
timestamp to the current clock value, but it persists the document with
a single direct `write_text` to the state-file path — every operation it
performs is a plain `writeFile`, never a rename — so no write-then-rename
atomicity mechanism is present. -/
theorem c4_save_state_amended (path : String) (st : StateDoc) (now : String) :
    ((save_state path st now).1.meta.getD []).lookup "updated_at" = some now ∧
    (save_state path st now).2 =
      [FsOp.writeFile path (encodeState (save_state path st now).1)] ∧
    (∀ op ∈ (save_state path st now).2, op.isRenameOp = false) := by
  refine ⟨?_, rfl, ?_⟩
  · simp [save_state, lookup_upsert]
  · intro op hop
    simp [save_state] at hop
    rw [hop]
    rfl

/-- Witness for C4 (amended): the timestamp update and single-write shape
at a concrete state. -/
theorem c4_save_state_amended_witness :
    (((save_state "latest-build-state.json" { meta := none, crates := [] }
        "2026-02-03T04:05:06Z").1.meta.getD []).lookup "updated_at")
      = some "2026-02-03T04:05:06Z" :=
  (c4_save_state_amended "latest-build-state.json" { meta := none, crates := [] }
    "2026-02-03T04:05:06Z").1
